import Mathlib

/-!
Shallow embedding of the render-command batching and frame-to-frame
draw-step cache of src/src/SFML/Graphics/RenderTarget.cpp.

The embedding models the observable CPU-side state of a RenderTarget:
the ordered cached step sequence, the cursor into it, the currently
open batch, and counters tracking GPU handle generation and the number
of buffer uploads performed.  GPU calls themselves (glDrawArrays and
friends) are modelled by the data they would receive.  Scalars that
the source stores as float are modelled as exact rationals; the claims
only ever compare buffers element-wise, never across differently
computed values, so exact arithmetic is faithful to the comparisons.
-/

/-- Primitive topologies, in the declaration order of sf::PrimitiveType
(the order is observable through the modes array in RenderTarget::flush). -/
inductive PrimitiveType where
  | Points
  | Lines
  | LineStrip
  | Triangles
  | TriangleStrip
  | TriangleFan
deriving DecidableEq, Repr

/-- Blend factors, as enumerated by the switch in
RenderTargetImpl::factorToGlConstant (RenderTarget.cpp lines 89-110). -/
inductive BlendFactor where
  | Zero
  | One
  | SrcColor
  | OneMinusSrcColor
  | DstColor
  | OneMinusDstColor
  | SrcAlpha
  | OneMinusSrcAlpha
  | DstAlpha
  | OneMinusDstAlpha
deriving DecidableEq, Repr

/-- Blend equations, as enumerated by the switch in
RenderTargetImpl::equationToGlConstant (RenderTarget.cpp lines 114-129). -/
inductive BlendEquation where
  | Add
  | Subtract
  | ReverseSubtract
  | Min
  | Max
deriving DecidableEq, Repr

/-- Modelled from the spec: sf::BlendMode is a value type of four
color/alpha factors plus two equations, compared componentwise
(BlendMode.cpp is not part of the excerpt under src/). -/
structure BlendMode where
  colorSrcFactor : BlendFactor
  colorDstFactor : BlendFactor
  colorEquation : BlendEquation
  alphaSrcFactor : BlendFactor
  alphaDstFactor : BlendFactor
  alphaEquation : BlendEquation
deriving DecidableEq, Repr

/-- Modelled from the spec: the standard sf::BlendAlpha constant, the
blend mode that RenderTarget::flush fixes for the frame. -/
def alphaBlend : BlendMode :=
  { colorSrcFactor := .SrcAlpha
    colorDstFactor := .OneMinusSrcAlpha
    colorEquation := .Add
    alphaSrcFactor := .One
    alphaDstFactor := .OneMinusSrcAlpha
    alphaEquation := .Add }

/-- Modelled from the spec: a 2D affine transform (coordinate-space
conversion is an external collaborator; Transform.cpp is not under src/).
Only its application to a position participates in batching. -/
structure Transform where
  a00 : Rat
  a01 : Rat
  a02 : Rat
  a10 : Rat
  a11 : Rat
  a12 : Rat
deriving DecidableEq, Repr

/-- Application of a transform to a point, as in states.transform * position. -/
def Transform.transformPoint (m : Transform) (x y : Rat) : Rat × Rat :=
  (m.a00 * x + m.a01 * y + m.a02, m.a10 * x + m.a11 * y + m.a12)

/-- The identity transform (default of sf::RenderStates). -/
def Transform.identityT : Transform :=
  { a00 := 1, a01 := 0, a02 := 0, a10 := 0, a11 := 1, a12 := 0 }

/-- A vertex: position, color channels (0-255 source range), texture
coordinates, as read by RenderTarget::draw. -/
structure Vertex where
  posX : Rat
  posY : Rat
  colR : Rat
  colG : Rat
  colB : Rat
  colA : Rat
  texU : Rat
  texV : Rat
deriving DecidableEq, Repr

/-- Pipeline configuration passed to a draw call (sf::RenderStates).
Texture and shader are identities (null = none), compared by identity. -/
structure RenderStates where
  transform : Transform
  blendMode : BlendMode
  texture : Option Nat
  shader : Option Nat
deriving DecidableEq, Repr

/-- Default render states: identity transform, alpha blending, no
texture, no shader (sf::RenderStates::Default). -/
def defaultRenderStates : RenderStates :=
  { transform := Transform.identityT
    blendMode := alphaBlend
    texture := none
    shader := none }

/-- RenderTarget::StepState (RenderTarget.cpp lines 545-560): primitive
kind stored with the batch, blend mode, texture identity, shader
identity.  The derived structural equality coincides with the
field-by-field operator== of the source (value comparison of kind and
blend mode, identity comparison of texture and shader). -/
@[ext]
structure StepState where
  type : PrimitiveType
  blendMode : BlendMode
  texture : Option Nat
  shader : Option Nat
deriving DecidableEq, Repr

/-- The StepState implied by a draw call: StepState(new_type, states)
per the constructor at RenderTarget.cpp lines 545-550. -/
def StepState.ofStates (t : PrimitiveType) (states : RenderStates) : StepState :=
  { type := t
    blendMode := states.blendMode
    texture := states.texture
    shader := states.shader }

/-- RenderTarget::DrawStep: one emitted batch.  vertices is the
interleaved CPU float buffer, elements the CPU index buffer; vbo, vao
and ebo are the GPU handles (0 = none); overruled marks a step backed
by an externally owned buffer. -/
@[ext]
structure DrawStep where
  state : StepState
  vertices : List Rat
  elements : List Nat
  vbo : Nat
  vao : Nat
  ebo : Nat
  overruled : Bool
deriving DecidableEq, Repr

/-- DrawStep's default constructor (RenderTarget.cpp lines 581-587):
state {Points, RenderStates::Default}, zero handles, not overruled. -/
def defaultStep : DrawStep :=
  { state := StepState.ofStates .Points defaultRenderStates
    vertices := []
    elements := []
    vbo := 0
    vao := 0
    ebo := 0
    overruled := false }

/-- DrawStep::upload (RenderTarget.cpp lines 642-671): (re)generates the
vbo, ebo and vao handles (in that order) and pushes the CPU buffers to
the GPU; modelled by assigning fresh handle numbers from nh. -/
def DrawStep.uploaded (s : DrawStep) (nh : Nat) : DrawStep :=
  { s with vbo := nh, ebo := nh + 1, vao := nh + 2 }

/-- Model of one RenderTarget: the cached step sequence m_steps, the
cursor m_stepsIdx, the open batch m_currentStep, plus a fresh-handle
counter and a count of DrawStep::upload invocations (each upload is a
GPU buffer upload). -/
@[ext]
structure RenderTarget where
  steps : List DrawStep
  stepsIdx : Nat
  currentStep : DrawStep
  nextHandle : Nat
  uploads : Nat
deriving DecidableEq, Repr

/-- A RenderTarget as constructed (RenderTarget.cpp lines 477-479):
empty cache, cursor 0, default current step. -/
def initialTarget : RenderTarget :=
  { steps := []
    stepsIdx := 0
    currentStep := defaultStep
    nextHandle := 1
    uploads := 0 }

/-- RenderTargetImpl::minVertexCount (RenderTarget.cpp lines 133-142). -/
def minVertexCount : PrimitiveType → Nat
  | .Points => 1
  | .Lines => 2
  | .LineStrip => 2
  | .Triangles => 3
  | .TriangleStrip => 3
  | .TriangleFan => 3

/-- The new_type computation in RenderTarget::draw (lines 260-265).
LineStrip is reassigned to Lines; the TriangleStrip/TriangleFan branch
is the statement new_type == Triangles at line 264, a comparison whose
value is discarded, so those types pass through unchanged. -/
def canonicalType (t : PrimitiveType) : PrimitiveType :=
  if t = .LineStrip then .Lines else t

/-- Modelled from the spec: the canonicalization section 4.1 describes
(LineStrip to Lines; TriangleStrip and TriangleFan to Triangles;
Points, Lines, Triangles unchanged).  Kept separate from canonicalType,
which is translated from the source. -/
def specCanonicalType (t : PrimitiveType) : PrimitiveType :=
  match t with
  | .LineStrip => .Lines
  | .TriangleStrip => .Triangles
  | .TriangleFan => .Triangles
  | t => t

/-- The eight scalars appended per vertex: transformed position, color
channels normalized by 255, texture coordinates (RenderTarget.cpp
lines 287-297 and the copies in the other loops). -/
def vertexFloats (tr : Transform) (v : Vertex) : List Rat :=
  let p := tr.transformPoint v.posX v.posY
  [p.1, p.2, v.colR / 255, v.colG / 255, v.colB / 255, v.colA / 255, v.texU, v.texV]

/-- Concatenation of the per-vertex scalars of a list of vertices. -/
def floatsList (tr : Transform) : List Vertex → List Rat
  | [] => []
  | v :: rest => vertexFloats tr v ++ floatsList tr rest

/-- The accumulation loops of RenderTarget::draw (lines 283-343): for
each input vertex, indices are appended according to the requested
topology before the vertex scalars are appended.  i is the loop index
within the call, root the index of the first vertex of this call
(computed before the TriangleFan loop at line 321).  The TriangleStrip
branch of the source (lines 318-319) contains a loop without a body and
appends nothing. -/
def accumAux (t : PrimitiveType) (tr : Transform) (root : Nat) (i : Nat)
    (vs : List Vertex) (verts : List Rat) (elems : List Nat) : List Rat × List Nat :=
  match vs with
  | [] => (verts, elems)
  | v :: rest =>
    let n := verts.length / 8
    let elems' :=
      match t with
      | .Points | .Lines | .Triangles => elems ++ [n]
      | .LineStrip => if 0 < i then elems ++ [n - 1, n] else elems
      | .TriangleFan => if 2 < i then elems ++ [root, n - 1, n] else elems
      | .TriangleStrip => elems
    accumAux t tr root (i + 1) rest (verts ++ vertexFloats tr v) elems'

/-- Dispatch of the accumulation loops on the requested
(pre-canonicalization) topology, as the if chain at lines 283-343 does;
the TriangleStrip branch appends nothing (bodyless loop, lines 318-319). -/
def accumulate (t : PrimitiveType) (tr : Transform) (vs : List Vertex)
    (verts : List Rat) (elems : List Nat) : List Rat × List Nat :=
  match t with
  | .TriangleStrip => (verts, elems)
  | _ => accumAux t tr (verts.length / 8) 0 vs verts elems

/-- One fuel-indexed unrolling of the while loop at RenderTarget.cpp
lines 686-688; every iteration of the loop requires idx to be below the
sequence length and increments idx, so the loop runs at most
steps.length - idx times and the fuel never runs out early. -/
def skipOverruledFuel (steps : List DrawStep) : Nat → Nat → Nat
  | 0, idx => idx
  | fuel + 1, idx =>
    if idx < steps.length ∧ (steps.getD idx defaultStep).overruled = true then
      skipOverruledFuel steps fuel (idx + 1)
    else idx

/-- The while loop at RenderTarget.cpp lines 686-688: starting at idx,
advance past consecutive cached entries marked overruled. -/
def skipOverruled (steps : List DrawStep) (idx : Nat) : Nat :=
  skipOverruledFuel steps (steps.length - idx) idx

/-- The first half of RenderTarget::clearOngoingStep (RenderTarget.cpp
lines 676-695, the block guarded by the cursor being in range).  On a
three-way match of state, vertex buffer and index buffer at the cursor,
discard the open batch, advance the cursor and skip following overruled
entries; otherwise, if the open batch has both buffers non-empty, erase
every cached entry from the cursor to the end. -/
def clearStepDiff (rt : RenderTarget) : RenderTarget :=
  if rt.stepsIdx < rt.steps.length then
    if (rt.steps.getD rt.stepsIdx defaultStep).state = rt.currentStep.state ∧
       (rt.steps.getD rt.stepsIdx defaultStep).vertices = rt.currentStep.vertices ∧
       (rt.steps.getD rt.stepsIdx defaultStep).elements = rt.currentStep.elements then
      { rt with
        currentStep := defaultStep
        stepsIdx := skipOverruled rt.steps (rt.stepsIdx + 1) }
    else if rt.currentStep.vertices ≠ [] ∧ rt.currentStep.elements ≠ [] then
      { rt with steps := rt.steps.take rt.stepsIdx }
    else rt
  else rt

/-- The second half of RenderTarget::clearOngoingStep (RenderTarget.cpp
lines 697-703): if the open batch has both buffers non-empty, upload
it, append it to the cache and advance the cursor. -/
def clearStepUpload (rt : RenderTarget) : RenderTarget :=
  if rt.currentStep.vertices ≠ [] ∧ rt.currentStep.elements ≠ [] then
    { rt with
      steps := rt.steps ++ [rt.currentStep.uploaded rt.nextHandle]
      currentStep := defaultStep
      stepsIdx := rt.stepsIdx + 1
      nextHandle := rt.nextHandle + 3
      uploads := rt.uploads + 1 }
  else rt

/-- RenderTarget::clearOngoingStep (RenderTarget.cpp lines 675-704),
the positional diff of the closing batch against the cached sequence
followed by the conditional upload. -/
def clearOngoingStep (rt : RenderTarget) : RenderTarget :=
  clearStepUpload (clearStepDiff rt)

/-- RenderTarget::draw(const Vertex*, size, type, states)
(RenderTarget.cpp lines 252-345).  vertices is the possibly null vertex
array.  Below the minimum vertex count, or on a null pointer, the call
returns untouched.  Otherwise the new StepState is compared with the
open batch's; on inequality the open batch is closed via
clearOngoingStep and the new state installed; then the call's geometry
is accumulated into the (old or fresh) open batch. -/
def draw (rt : RenderTarget) (vertices : Option (List Vertex)) (vertexCount : Nat)
    (ptype : PrimitiveType) (states : RenderStates) : RenderTarget :=
  match vertices with
  | none => rt
  | some vs =>
    if vertexCount < minVertexCount ptype then rt
    else
      let newState := StepState.ofStates (canonicalType ptype) states
      let rt1 :=
        if rt.currentStep.state ≠ newState then
          let r := clearOngoingStep rt
          { r with currentStep := { r.currentStep with state := newState } }
        else rt
      let acc := accumulate ptype states.transform (vs.take vertexCount)
                   rt1.currentStep.vertices rt1.currentStep.elements
      { rt1 with
        currentStep := { rt1.currentStep with vertices := acc.1, elements := acc.2 } }

/-- RenderTarget::draw(const VertexBuffer&, firstVertex, vertexCount,
states) (RenderTarget.cpp lines 356-382).  The external buffer is
abstracted by its native handle (0 = none), its vertex count and its
primitive type.  The call clamps the count, returns untouched when
there is nothing to draw, otherwise closes the open batch and appends
one overruled step carrying the buffer handle and the clamped range. -/
def drawVertexBuffer (rt : RenderTarget) (bufHandle bufVertexCount : Nat)
    (bufType : PrimitiveType) (firstVertex vertexCount : Nat)
    (states : RenderStates) : RenderTarget :=
  if bufVertexCount < firstVertex then rt
  else
    let count := min vertexCount (bufVertexCount - firstVertex)
    if count = 0 ∨ bufHandle = 0 then rt
    else
      let r := clearOngoingStep rt
      let ov : DrawStep :=
        { r.currentStep with
          state := StepState.ofStates bufType states
          vbo := bufHandle
          overruled := true
          vertices := r.currentStep.vertices ++ [(firstVertex : Rat), (count : Rat)] }
      { r with
        steps := r.steps ++ [ov]
        stepsIdx := r.stepsIdx + 1
        currentStep := defaultStep }

/-- One glDrawArrays invocation issued during flush: bound vertex array
object, primitive mode (the cached StepState's kind, through the modes
table at line 465), and the vertex count vertices.size() / 8. -/
structure DrawInvocation where
  vao : Nat
  mode : PrimitiveType
  count : Nat
deriving DecidableEq, Repr

/-- RenderTarget::flush (RenderTarget.cpp lines 439-473): close the
open batch, reset the cursor to 0, then issue one draw invocation per
cached step in order.  The replay itself does not mutate the cache;
the emitted invocation list is returned alongside the new state. -/
def flush (rt : RenderTarget) : RenderTarget × List DrawInvocation :=
  let r := clearOngoingStep rt
  let r2 := { r with stepsIdx := 0 }
  (r2, r2.steps.map fun s => { vao := s.vao, mode := s.state.type, count := s.vertices.length / 8 })

/-- The index pairs the LineStrip synthesis is specified to append,
starting at pair (j, j+1): one pair per remaining vertex. -/
def stripPairsAux (j : Nat) : Nat → List Nat
  | 0 => []
  | m + 1 => j :: (j + 1) :: stripPairsAux (j + 1) m

/-- The index sequence the specification ascribes to a LineStrip call
of count vertices appended to a batch already holding b vertices: for
every vertex i > 0 within the call, the pair (b + i - 1, b + i). -/
def lineStripPairs (b count : Nat) : List Nat :=
  match count with
  | 0 => []
  | m + 1 => stripPairsAux b m

/-- A sample vertex at x-position k, used by concrete instantiations. -/
def fanV (k : Nat) : Vertex :=
  { posX := (k : Rat), posY := 0, colR := 255, colG := 255, colB := 255,
    colA := 255, texU := 0, texV := 0 }

/-- Five sample vertices for the TriangleFan instantiations. -/
def fanList : List Vertex := [fanV 0, fanV 1, fanV 2, fanV 3, fanV 4]

/-- A sample StepState (the same value the default step carries). -/
def stateA : StepState := StepState.ofStates .Points defaultRenderStates

/-- Sample interleaved CPU vertex buffer of one vertex. -/
def v8a : List Rat := [0, 0, 1, 1, 1, 1, 0, 0]

/-- A second sample CPU vertex buffer, differing from v8a. -/
def v8b : List Rat := [5, 5, 1, 1, 1, 1, 0, 0]

/-- A cached batched entry with uploaded GPU handles. -/
def stepA : DrawStep :=
  { state := stateA, vertices := v8a, elements := [0],
    vbo := 2, vao := 4, ebo := 3, overruled := false }

/-- A second cached batched entry with different geometry. -/
def stepB : DrawStep :=
  { state := stateA, vertices := v8b, elements := [0],
    vbo := 5, vao := 7, ebo := 6, overruled := false }

/-- A cached overruled entry (external buffer handle 9, range 5..8). -/
def stepOv : DrawStep :=
  { state := stateA, vertices := [5, 3], elements := [],
    vbo := 9, vao := 0, ebo := 0, overruled := true }

/-- An open batch whose buffers match stepA's. -/
def curA : DrawStep :=
  { state := stateA, vertices := v8a, elements := [0],
    vbo := 0, vao := 0, ebo := 0, overruled := false }

/-- An open batch whose buffers match stepB's (and differ from stepA's). -/
def curB : DrawStep :=
  { state := stateA, vertices := v8b, elements := [0],
    vbo := 0, vao := 0, ebo := 0, overruled := false }

/-- Concrete target for the cache-hit instantiation: the open batch
matches the entry at the cursor, which is followed by an overruled
entry and a further batched entry. -/
def c1Target : RenderTarget :=
  { steps := [stepA, stepOv, stepB], stepsIdx := 0, currentStep := curA,
    nextHandle := 10, uploads := 1 }

/-- Concrete target for the cache-miss instantiation: the open batch
differs from the entry at the cursor. -/
def c2Target : RenderTarget :=
  { steps := [stepA, stepB], stepsIdx := 0, currentStep := curB,
    nextHandle := 10, uploads := 2 }

/-- Concrete target for the LineStrip instantiation: an empty open
batch whose StepState already matches a LineStrip draw with default
states (so the call extends it). -/
def c7Target : RenderTarget :=
  { initialTarget with
    currentStep := { defaultStep with
      state := StepState.ofStates .Lines defaultRenderStates } }

/-- A target holding one cached entry (stepA, at cursor 0) and an open
batch produced by an actual 3-vertex TriangleFan draw: the fan loop's
guard 2 < i never fires for three vertices, so the accumulation
appends 24 scalars but no indices, leaving a degenerate open batch
with a non-empty vertex buffer and an empty index buffer. -/
def fan3Target : RenderTarget :=
  draw { steps := [stepA], stepsIdx := 0, currentStep := defaultStep,
         nextHandle := 10, uploads := 1 }
    (some [fanV 0, fanV 1, fanV 2]) 3 .TriangleFan defaultRenderStates

/-! Helper lemmas about the cache-skip loop and the two halves of
clearOngoingStep. -/

lemma skipOverruledFuel_char (steps : List DrawStep) :
    ∀ (fuel idx : Nat), steps.length - idx ≤ fuel →
      idx ≤ skipOverruledFuel steps fuel idx ∧
      (∀ k, idx ≤ k → k < skipOverruledFuel steps fuel idx →
        k < steps.length ∧ (steps.getD k defaultStep).overruled = true) ∧
      ¬(skipOverruledFuel steps fuel idx < steps.length ∧
        (steps.getD (skipOverruledFuel steps fuel idx) defaultStep).overruled = true) := by
  intro fuel
  induction fuel with
  | zero =>
    intro idx hle
    refine ⟨le_refl _, ?_, ?_⟩
    · intro k h1 h2
      simp only [skipOverruledFuel] at h2
      omega
    · simp only [skipOverruledFuel]
      intro hc
      omega
  | succ fuel ih =>
    intro idx hle
    by_cases h : idx < steps.length ∧ (steps.getD idx defaultStep).overruled = true
    · have heq : skipOverruledFuel steps (fuel + 1) idx = skipOverruledFuel steps fuel (idx + 1) := by
        simp only [skipOverruledFuel, if_pos h]
      have hrec := ih (idx + 1) (by omega)
      rw [heq]
      refine ⟨by omega, ?_, hrec.2.2⟩
      intro k h1 h2
      rcases Nat.eq_or_lt_of_le h1 with he | hlt
      · rw [← he]
        exact h
      · exact hrec.2.1 k (by omega) h2
    · have heq : skipOverruledFuel steps (fuel + 1) idx = idx := by
        simp only [skipOverruledFuel, if_neg h]
      rw [heq]
      exact ⟨le_refl _, fun k h1 h2 => absurd (lt_of_le_of_lt h1 h2) (lt_irrefl idx), h⟩

lemma skipOverruled_char (steps : List DrawStep) (idx : Nat) :
    idx ≤ skipOverruled steps idx ∧
    (∀ k, idx ≤ k → k < skipOverruled steps idx →
      k < steps.length ∧ (steps.getD k defaultStep).overruled = true) ∧
    ¬(skipOverruled steps idx < steps.length ∧
      (steps.getD (skipOverruled steps idx) defaultStep).overruled = true) :=
  skipOverruledFuel_char steps (steps.length - idx) idx (le_refl _)

lemma clearStepDiff_hit (rt : RenderTarget)
    (h : rt.stepsIdx < rt.steps.length)
    (hs : (rt.steps.getD rt.stepsIdx defaultStep).state = rt.currentStep.state)
    (hv : (rt.steps.getD rt.stepsIdx defaultStep).vertices = rt.currentStep.vertices)
    (he : (rt.steps.getD rt.stepsIdx defaultStep).elements = rt.currentStep.elements) :
    clearStepDiff rt =
      { rt with currentStep := defaultStep,
                stepsIdx := skipOverruled rt.steps (rt.stepsIdx + 1) } := by
  unfold clearStepDiff
  rw [if_pos h, if_pos ⟨hs, hv, he⟩]

lemma clearStepDiff_miss (rt : RenderTarget)
    (h : rt.stepsIdx < rt.steps.length)
    (hmiss : ¬((rt.steps.getD rt.stepsIdx defaultStep).state = rt.currentStep.state ∧
               (rt.steps.getD rt.stepsIdx defaultStep).vertices = rt.currentStep.vertices ∧
               (rt.steps.getD rt.stepsIdx defaultStep).elements = rt.currentStep.elements))
    (hv : rt.currentStep.vertices ≠ []) (he : rt.currentStep.elements ≠ []) :
    clearStepDiff rt = { rt with steps := rt.steps.take rt.stepsIdx } := by
  unfold clearStepDiff
  rw [if_pos h, if_neg hmiss, if_pos ⟨hv, he⟩]

lemma clearStepDiff_cases (rt : RenderTarget) :
    clearStepDiff rt
        = { rt with currentStep := defaultStep,
                    stepsIdx := skipOverruled rt.steps (rt.stepsIdx + 1) } ∨
    (clearStepDiff rt = { rt with steps := rt.steps.take rt.stepsIdx } ∧
      rt.currentStep.vertices ≠ [] ∧ rt.currentStep.elements ≠ []) ∨
    clearStepDiff rt = rt := by
  unfold clearStepDiff
  split_ifs with h1 h2 h3
  · exact Or.inl rfl
  · exact Or.inr (Or.inl ⟨rfl, h3.1, h3.2⟩)
  · exact Or.inr (Or.inr rfl)
  · exact Or.inr (Or.inr rfl)

lemma clearStepUpload_skip (rt : RenderTarget)
    (h : rt.currentStep.vertices = [] ∨ rt.currentStep.elements = []) :
    clearStepUpload rt = rt := by
  unfold clearStepUpload
  rw [if_neg (fun hc => by rcases h with h' | h' <;> simp [h'] at hc)]

lemma clearStepUpload_go (rt : RenderTarget)
    (hv : rt.currentStep.vertices ≠ []) (he : rt.currentStep.elements ≠ []) :
    clearStepUpload rt =
      { rt with
        steps := rt.steps ++ [rt.currentStep.uploaded rt.nextHandle]
        currentStep := defaultStep
        stepsIdx := rt.stepsIdx + 1
        nextHandle := rt.nextHandle + 3
        uploads := rt.uploads + 1 } := by
  unfold clearStepUpload
  rw [if_pos ⟨hv, he⟩]

lemma clearOngoingStep_of_empty (rt : RenderTarget)
    (h : rt.currentStep.vertices = [] ∨ rt.currentStep.elements = []) :
    (clearOngoingStep rt).steps = rt.steps ∧
    (clearOngoingStep rt).uploads = rt.uploads ∧
    (clearOngoingStep rt).nextHandle = rt.nextHandle := by
  unfold clearOngoingStep
  rcases clearStepDiff_cases rt with hd | ⟨hd, hv, he⟩ | hd
  · rw [hd, clearStepUpload_skip _ (Or.inl rfl)]
    exact ⟨rfl, rfl, rfl⟩
  · rcases h with h' | h'
    · exact absurd h' hv
    · exact absurd h' he
  · rw [hd, clearStepUpload_skip _ h]
    exact ⟨rfl, rfl, rfl⟩

lemma clearOngoingStep_cur_after (rt : RenderTarget) :
    (clearOngoingStep rt).currentStep.vertices = [] ∨
    (clearOngoingStep rt).currentStep.elements = [] := by
  unfold clearOngoingStep
  by_cases hc : (clearStepDiff rt).currentStep.vertices ≠ [] ∧
                (clearStepDiff rt).currentStep.elements ≠ []
  · rw [clearStepUpload_go _ hc.1 hc.2]
    exact Or.inl rfl
  · rw [not_and_or] at hc
    have h' : (clearStepDiff rt).currentStep.vertices = [] ∨
              (clearStepDiff rt).currentStep.elements = [] := by
      rcases hc with hc | hc
      · exact Or.inl (not_not.mp hc)
      · exact Or.inr (not_not.mp hc)
    rw [clearStepUpload_skip _ h']
    exact h'

/-- C1: when a batch closes while the cursor is within the cached
sequence and the entry at the cursor agrees with the closing batch in
StepState, CPU vertex buffer and CPU index buffer, the cached sequence
and the upload and handle counters are untouched (the existing entry
and its GPU buffers are kept, no new upload happens), the closing
batch's CPU buffers are discarded, and the cursor moves past the entry
and then past every immediately following overruled entry (it stops at
the first position that is out of range or not overruled). -/
theorem C1_cache_hit_reuses_entry (rt : RenderTarget)
    (h : rt.stepsIdx < rt.steps.length)
    (hs : (rt.steps.getD rt.stepsIdx defaultStep).state = rt.currentStep.state)
    (hv : (rt.steps.getD rt.stepsIdx defaultStep).vertices = rt.currentStep.vertices)
    (he : (rt.steps.getD rt.stepsIdx defaultStep).elements = rt.currentStep.elements) :
    (clearOngoingStep rt).steps = rt.steps ∧
    (clearOngoingStep rt).uploads = rt.uploads ∧
    (clearOngoingStep rt).nextHandle = rt.nextHandle ∧
    (clearOngoingStep rt).currentStep = defaultStep ∧
    rt.stepsIdx + 1 ≤ (clearOngoingStep rt).stepsIdx ∧
    (∀ k, rt.stepsIdx + 1 ≤ k → k < (clearOngoingStep rt).stepsIdx →
      k < rt.steps.length ∧ (rt.steps.getD k defaultStep).overruled = true) ∧
    ¬((clearOngoingStep rt).stepsIdx < rt.steps.length ∧
      (rt.steps.getD ((clearOngoingStep rt).stepsIdx) defaultStep).overruled = true) := by
  have hu : clearOngoingStep rt =
      { rt with currentStep := defaultStep,
                stepsIdx := skipOverruled rt.steps (rt.stepsIdx + 1) } := by
    unfold clearOngoingStep
    rw [clearStepDiff_hit rt h hs hv he, clearStepUpload_skip _ (Or.inl rfl)]
  rw [hu]
  obtain ⟨hle, hmid, hstop⟩ := skipOverruled_char rt.steps (rt.stepsIdx + 1)
  exact ⟨rfl, rfl, rfl, rfl, hle, hmid, hstop⟩

/-- Witness for C1 at a concrete target: the entry at cursor 0 matches
the closing batch, and is followed by one overruled entry and one
further batched entry, so the cursor lands at 2. -/
theorem C1_cache_hit_reuses_entry_witness :
    (c1Target.stepsIdx < c1Target.steps.length ∧
     (c1Target.steps.getD c1Target.stepsIdx defaultStep).state = c1Target.currentStep.state ∧
     (c1Target.steps.getD c1Target.stepsIdx defaultStep).vertices = c1Target.currentStep.vertices ∧
     (c1Target.steps.getD c1Target.stepsIdx defaultStep).elements = c1Target.currentStep.elements) ∧
    ((clearOngoingStep c1Target).steps = c1Target.steps ∧
     (clearOngoingStep c1Target).uploads = c1Target.uploads ∧
     (clearOngoingStep c1Target).nextHandle = c1Target.nextHandle ∧
     (clearOngoingStep c1Target).currentStep = defaultStep ∧
     c1Target.stepsIdx + 1 ≤ (clearOngoingStep c1Target).stepsIdx ∧
     (∀ k, c1Target.stepsIdx + 1 ≤ k → k < (clearOngoingStep c1Target).stepsIdx →
       k < c1Target.steps.length ∧ (c1Target.steps.getD k defaultStep).overruled = true) ∧
     ¬((clearOngoingStep c1Target).stepsIdx < c1Target.steps.length ∧
       (c1Target.steps.getD ((clearOngoingStep c1Target).stepsIdx) defaultStep).overruled = true)) ∧
    (clearOngoingStep c1Target).stepsIdx = 2 :=
  ⟨⟨by decide, by decide, by decide, by decide⟩,
   C1_cache_hit_reuses_entry c1Target (by decide) (by decide) (by decide) (by decide),
   by decide⟩

/-- C2 counterexample: the claim's unrestricted "whenever a closing
batch does not match the cached entry at the cursor, every cached
entry from the cursor to the end is removed" is false of the code.  At
fan3Target the open batch - produced by an ordinary 3-vertex
TriangleFan draw - holds 24 vertex scalars and no indices and does not
match the in-range cached entry at cursor 0, yet closing it removes
nothing: the erase at line 693 is guarded by the open batch's index
buffer being non-empty (line 689), so the cached sequence stays intact
(and non-empty) and no upload happens. -/
theorem C2_cache_miss_truncates_counterexample :
    fan3Target.currentStep.vertices.length = 24 ∧
    fan3Target.currentStep.elements = [] ∧
    fan3Target.stepsIdx < fan3Target.steps.length ∧
    ¬((fan3Target.steps.getD fan3Target.stepsIdx defaultStep).state
        = fan3Target.currentStep.state ∧
      (fan3Target.steps.getD fan3Target.stepsIdx defaultStep).vertices
        = fan3Target.currentStep.vertices ∧
      (fan3Target.steps.getD fan3Target.stepsIdx defaultStep).elements
        = fan3Target.currentStep.elements) ∧
    (clearOngoingStep fan3Target).steps = fan3Target.steps ∧
    fan3Target.steps ≠ [] ∧
    (clearOngoingStep fan3Target).uploads = fan3Target.uploads := by
  decide

/-- C2 as amended: when a closing batch with BOTH CPU buffers non-empty
(vertex and index) does not match the cached entry at the cursor in
state, vertex buffer or index buffer, every cached entry from the
cursor to the end is removed, the closing batch is uploaded (upload
counter +1) and appended, the cursor advances past it and now sits at
the end of the sequence, so every further proper close in this frame
is again an upload-and-append even if its buffers are byte-identical
to a previously cached batch.  (A degenerate closing batch with vertex
data but an empty index buffer - as a 3-vertex TriangleFan draw
produces - removes nothing; see the counterexample.) -/
theorem C2_cache_miss_truncates (rt : RenderTarget)
    (h : rt.stepsIdx < rt.steps.length)
    (hmiss : ¬((rt.steps.getD rt.stepsIdx defaultStep).state = rt.currentStep.state ∧
               (rt.steps.getD rt.stepsIdx defaultStep).vertices = rt.currentStep.vertices ∧
               (rt.steps.getD rt.stepsIdx defaultStep).elements = rt.currentStep.elements))
    (hv : rt.currentStep.vertices ≠ []) (he : rt.currentStep.elements ≠ []) :
    (clearOngoingStep rt).steps
      = rt.steps.take rt.stepsIdx ++ [rt.currentStep.uploaded rt.nextHandle] ∧
    (clearOngoingStep rt).stepsIdx = rt.stepsIdx + 1 ∧
    (clearOngoingStep rt).stepsIdx = (clearOngoingStep rt).steps.length ∧
    (clearOngoingStep rt).uploads = rt.uploads + 1 ∧
    (rt.currentStep.uploaded rt.nextHandle).state = rt.currentStep.state ∧
    (rt.currentStep.uploaded rt.nextHandle).vertices = rt.currentStep.vertices ∧
    (rt.currentStep.uploaded rt.nextHandle).elements = rt.currentStep.elements ∧
    (∀ cur2 : DrawStep, cur2.vertices ≠ [] → cur2.elements ≠ [] →
      (clearOngoingStep { clearOngoingStep rt with currentStep := cur2 }).uploads
        = rt.uploads + 2 ∧
      (clearOngoingStep { clearOngoingStep rt with currentStep := cur2 }).steps
        = (clearOngoingStep rt).steps ++ [cur2.uploaded ((clearOngoingStep rt).nextHandle)]) := by
  have hu : clearOngoingStep rt =
      { rt with
        steps := rt.steps.take rt.stepsIdx ++ [rt.currentStep.uploaded rt.nextHandle]
        currentStep := defaultStep
        stepsIdx := rt.stepsIdx + 1
        nextHandle := rt.nextHandle + 3
        uploads := rt.uploads + 1 } := by
    unfold clearOngoingStep
    rw [clearStepDiff_miss rt h hmiss hv he]
    exact clearStepUpload_go { rt with steps := rt.steps.take rt.stepsIdx } hv he
  have hlen : (rt.steps.take rt.stepsIdx ++ [rt.currentStep.uploaded rt.nextHandle]).length
      = rt.stepsIdx + 1 := by
    simp [List.length_take]
    omega
  refine ⟨by rw [hu], by rw [hu], ?_, by rw [hu], rfl, rfl, rfl, ?_⟩
  · rw [hu]
    exact hlen.symm
  · intro cur2 hv2 he2
    have hout : ¬({ clearOngoingStep rt with currentStep := cur2 }.stepsIdx
        < { clearOngoingStep rt with currentStep := cur2 }.steps.length) := by
      rw [hu]
      simp only
      omega
    have hd : clearStepDiff { clearOngoingStep rt with currentStep := cur2 }
        = { clearOngoingStep rt with currentStep := cur2 } := by
      unfold clearStepDiff
      rw [if_neg hout]
    have hg := clearStepUpload_go { clearOngoingStep rt with currentStep := cur2 } hv2 he2
    constructor
    · show (clearStepUpload (clearStepDiff _)).uploads = rt.uploads + 2
      rw [hd, hg]
      simp only
      rw [hu]
    · show (clearStepUpload (clearStepDiff _)).steps
        = (clearOngoingStep rt).steps ++ [cur2.uploaded ((clearOngoingStep rt).nextHandle)]
      rw [hd, hg]

/-- Witness for C2 at a concrete target: the open batch differs from
the entry at cursor 0 of a two-entry cache. -/
theorem C2_cache_miss_truncates_witness :
    (c2Target.stepsIdx < c2Target.steps.length ∧
     ¬((c2Target.steps.getD c2Target.stepsIdx defaultStep).state = c2Target.currentStep.state ∧
       (c2Target.steps.getD c2Target.stepsIdx defaultStep).vertices = c2Target.currentStep.vertices ∧
       (c2Target.steps.getD c2Target.stepsIdx defaultStep).elements = c2Target.currentStep.elements) ∧
     c2Target.currentStep.vertices ≠ [] ∧ c2Target.currentStep.elements ≠ []) ∧
    ((clearOngoingStep c2Target).steps
       = c2Target.steps.take c2Target.stepsIdx ++ [c2Target.currentStep.uploaded c2Target.nextHandle] ∧
     (clearOngoingStep c2Target).stepsIdx = c2Target.stepsIdx + 1 ∧
     (clearOngoingStep c2Target).stepsIdx = (clearOngoingStep c2Target).steps.length ∧
     (clearOngoingStep c2Target).uploads = c2Target.uploads + 1 ∧
     (c2Target.currentStep.uploaded c2Target.nextHandle).state = c2Target.currentStep.state ∧
     (c2Target.currentStep.uploaded c2Target.nextHandle).vertices = c2Target.currentStep.vertices ∧
     (c2Target.currentStep.uploaded c2Target.nextHandle).elements = c2Target.currentStep.elements ∧
     (∀ cur2 : DrawStep, cur2.vertices ≠ [] → cur2.elements ≠ [] →
       (clearOngoingStep { clearOngoingStep c2Target with currentStep := cur2 }).uploads
         = c2Target.uploads + 2 ∧
       (clearOngoingStep { clearOngoingStep c2Target with currentStep := cur2 }).steps
         = (clearOngoingStep c2Target).steps
             ++ [cur2.uploaded ((clearOngoingStep c2Target).nextHandle)])) :=
  ⟨⟨by decide, by decide, by decide, by decide⟩,
   C2_cache_miss_truncates c2Target (by decide) (by decide) (by decide) (by decide)⟩

/-- C3: flushing twice with no draw calls in between issues the same
ordered draw-invocation list both times and performs zero new uploads
on the second flush; each flush resets the cursor to 0, and the second
flush leaves the cached step sequence unchanged. -/
theorem C3_flush_idempotent_replay (rt : RenderTarget) :
    (flush (flush rt).1).2 = (flush rt).2 ∧
    (flush (flush rt).1).1.uploads = (flush rt).1.uploads ∧
    (flush (flush rt).1).1.steps = (flush rt).1.steps ∧
    (flush rt).1.stepsIdx = 0 ∧
    (flush (flush rt).1).1.stepsIdx = 0 := by
  have hcur : (flush rt).1.currentStep.vertices = [] ∨
              (flush rt).1.currentStep.elements = [] := by
    show ({ clearOngoingStep rt with stepsIdx := 0 } : RenderTarget).currentStep.vertices = [] ∨
         ({ clearOngoingStep rt with stepsIdx := 0 } : RenderTarget).currentStep.elements = []
    exact clearOngoingStep_cur_after rt
  obtain ⟨hsteps, huploads, _⟩ := clearOngoingStep_of_empty (flush rt).1 hcur
  refine ⟨?_, ?_, ?_, rfl, rfl⟩
  · show ({ clearOngoingStep (flush rt).1 with stepsIdx := 0 } : RenderTarget).steps.map _
      = (flush rt).1.steps.map _
    rw [show ({ clearOngoingStep (flush rt).1 with stepsIdx := 0 } : RenderTarget).steps
      = (clearOngoingStep (flush rt).1).steps from rfl, hsteps]
  · exact huploads
  · exact hsteps

/-! Unfolding lemmas for the raw-vertex draw call and the accumulation
loops. -/

lemma draw_state_eq (rt : RenderTarget) (vs : List Vertex) (count : Nat)
    (t : PrimitiveType) (states : RenderStates)
    (hmin : ¬ count < minVertexCount t)
    (hstate : rt.currentStep.state = StepState.ofStates (canonicalType t) states) :
    draw rt (some vs) count t states =
      { rt with currentStep := { rt.currentStep with
          vertices := (accumulate t states.transform (vs.take count)
            rt.currentStep.vertices rt.currentStep.elements).1
          elements := (accumulate t states.transform (vs.take count)
            rt.currentStep.vertices rt.currentStep.elements).2 } } := by
  simp only [draw]
  rw [if_neg hmin, if_neg (not_not_intro hstate)]

lemma draw_state_ne (rt : RenderTarget) (vs : List Vertex) (count : Nat)
    (t : PrimitiveType) (states : RenderStates)
    (hmin : ¬ count < minVertexCount t)
    (hstate : rt.currentStep.state ≠ StepState.ofStates (canonicalType t) states) :
    draw rt (some vs) count t states =
      { clearOngoingStep rt with currentStep :=
        { (clearOngoingStep rt).currentStep with
          state := StepState.ofStates (canonicalType t) states
          vertices := (accumulate t states.transform (vs.take count)
            (clearOngoingStep rt).currentStep.vertices
            (clearOngoingStep rt).currentStep.elements).1
          elements := (accumulate t states.transform (vs.take count)
            (clearOngoingStep rt).currentStep.vertices
            (clearOngoingStep rt).currentStep.elements).2 } } := by
  simp only [draw]
  rw [if_neg hmin, if_pos hstate]

lemma accumAux_fst (t : PrimitiveType) (tr : Transform) :
    ∀ (vs : List Vertex) (root i : Nat) (verts : List Rat) (elems : List Nat),
      (accumAux t tr root i vs verts elems).1 = verts ++ floatsList tr vs := by
  intro vs
  induction vs with
  | nil =>
    intro root i verts elems
    simp [accumAux, floatsList]
  | cons v rest ih =>
    intro root i verts elems
    simp only [accumAux]
    rw [ih]
    simp [floatsList, List.append_assoc]

lemma accumulate_fst (t : PrimitiveType) (tr : Transform) (vs : List Vertex)
    (verts : List Rat) (elems : List Nat) (ht : t ≠ .TriangleStrip) :
    (accumulate t tr vs verts elems).1 = verts ++ floatsList tr vs := by
  cases t <;>
    first
      | exact absurd rfl ht
      | (simp only [accumulate]; exact accumAux_fst _ _ _ _ _ _ _)

lemma floatsList_length (tr : Transform) (vs : List Vertex) :
    (floatsList tr vs).length = 8 * vs.length := by
  induction vs with
  | nil => simp [floatsList]
  | cons v rest ih =>
    simp [floatsList, vertexFloats, ih]
    omega

lemma accumAux_lineStrip_pos (tr : Transform) (root : Nat) :
    ∀ (vs : List Vertex) (b i : Nat) (verts : List Rat) (elems : List Nat),
      0 < i → 0 < b → verts.length = 8 * b →
      (accumAux .LineStrip tr root i vs verts elems).2
        = elems ++ stripPairsAux (b - 1) vs.length := by
  intro vs
  induction vs with
  | nil =>
    intro b i verts elems hi hb hlen
    simp [accumAux, stripPairsAux]
  | cons v rest ih =>
    intro b i verts elems hi hb hlen
    have hn : verts.length / 8 = b := by
      rw [hlen]
      omega
    simp only [accumAux, List.length_cons]
    rw [if_pos hi, hn]
    have hlen2 : (verts ++ vertexFloats tr v).length = 8 * (b + 1) := by
      simp [vertexFloats]
      omega
    rw [ih (b + 1) (i + 1) _ _ (Nat.succ_pos i) (Nat.succ_pos b) hlen2]
    have hsp : stripPairsAux (b - 1) (rest.length + 1)
        = (b - 1) :: b :: stripPairsAux b rest.length := by
      have hb1 : b - 1 + 1 = b := by omega
      simp only [stripPairsAux]
      rw [hb1]
    rw [hsp, Nat.add_sub_cancel]
    simp

/-- C7: a LineStrip draw call that extends a batch already holding b
vertices appends, for every vertex i > 0 within the call, the index
pair (b + i - 1, b + i), appends exactly the eight scalars of each
input vertex once (no vertex duplication), and closes no batch.  In
particular with b = 0 and four vertices the appended index sequence is
lineStripPairs 0 4 = [0, 1, 1, 2, 2, 3]. -/
theorem C7_linestrip_synthesis (rt : RenderTarget) (vs : List Vertex) (count b : Nat)
    (states : RenderStates)
    (hstate : rt.currentStep.state = StepState.ofStates (canonicalType .LineStrip) states)
    (hcount : 2 ≤ count) (hlen : count ≤ vs.length)
    (hb : rt.currentStep.vertices.length = 8 * b) :
    (draw rt (some vs) count .LineStrip states).currentStep.elements
      = rt.currentStep.elements ++ lineStripPairs b count ∧
    (draw rt (some vs) count .LineStrip states).currentStep.vertices
      = rt.currentStep.vertices ++ floatsList states.transform (vs.take count) ∧
    (draw rt (some vs) count .LineStrip states).steps = rt.steps ∧
    (draw rt (some vs) count .LineStrip states).stepsIdx = rt.stepsIdx ∧
    (draw rt (some vs) count .LineStrip states).uploads = rt.uploads := by
  have hmin : ¬ count < minVertexCount .LineStrip := by
    simp only [minVertexCount]
    omega
  rw [draw_state_eq rt vs count .LineStrip states hmin hstate]
  have htl : (vs.take count).length = count := by
    rw [List.length_take]
    omega
  obtain ⟨v0, l, hvl⟩ : ∃ v0 l, vs.take count = v0 :: l := by
    cases hx : vs.take count with
    | nil =>
      rw [hx] at htl
      simp at htl
      omega
    | cons a l => exact ⟨a, l, rfl⟩
  have hll : l.length = count - 1 := by
    rw [hvl] at htl
    simp at htl
    omega
  refine ⟨?_, ?_, rfl, rfl, rfl⟩
  · show (accumulate .LineStrip states.transform (vs.take count)
      rt.currentStep.vertices rt.currentStep.elements).2
      = rt.currentStep.elements ++ lineStripPairs b count
    simp only [accumulate]
    rw [hvl]
    simp only [accumAux]
    rw [if_neg (lt_irrefl 0)]
    have hlen2 : (rt.currentStep.vertices ++ vertexFloats states.transform v0).length
        = 8 * (b + 1) := by
      simp [vertexFloats]
      omega
    have hrw := accumAux_lineStrip_pos states.transform
      (rt.currentStep.vertices.length / 8) l (b + 1) 1
      (rt.currentStep.vertices ++ vertexFloats states.transform v0)
      rt.currentStep.elements Nat.one_pos (Nat.succ_pos b) hlen2
    rw [hrw, Nat.add_sub_cancel]
    obtain ⟨m, hm⟩ : ∃ m, count = m + 2 := ⟨count - 2, by omega⟩
    have hlp : lineStripPairs b count = stripPairsAux b (count - 1) := by
      rw [hm]
      simp only [lineStripPairs]
      congr 1
    rw [hlp, hll]
  · show (accumulate .LineStrip states.transform (vs.take count)
      rt.currentStep.vertices rt.currentStep.elements).1
      = rt.currentStep.vertices ++ floatsList states.transform (vs.take count)
    exact accumulate_fst _ _ _ _ _ (by decide)

/-- Witness for C7: four sample vertices drawn as a LineStrip into an
empty open batch with matching state yield exactly the index pairs
[0, 1, 1, 2, 2, 3]. -/
theorem C7_linestrip_synthesis_witness :
    (c7Target.currentStep.state
       = StepState.ofStates (canonicalType .LineStrip) defaultRenderStates ∧
     2 ≤ 4 ∧ 4 ≤ ([fanV 0, fanV 1, fanV 2, fanV 3] : List Vertex).length ∧
     c7Target.currentStep.vertices.length = 8 * 0) ∧
    ((draw c7Target (some [fanV 0, fanV 1, fanV 2, fanV 3]) 4 .LineStrip
        defaultRenderStates).currentStep.elements
      = c7Target.currentStep.elements ++ lineStripPairs 0 4 ∧
     (draw c7Target (some [fanV 0, fanV 1, fanV 2, fanV 3]) 4 .LineStrip
        defaultRenderStates).currentStep.vertices
      = c7Target.currentStep.vertices
          ++ floatsList defaultRenderStates.transform
               (([fanV 0, fanV 1, fanV 2, fanV 3] : List Vertex).take 4) ∧
     (draw c7Target (some [fanV 0, fanV 1, fanV 2, fanV 3]) 4 .LineStrip
        defaultRenderStates).steps = c7Target.steps ∧
     (draw c7Target (some [fanV 0, fanV 1, fanV 2, fanV 3]) 4 .LineStrip
        defaultRenderStates).stepsIdx = c7Target.stepsIdx ∧
     (draw c7Target (some [fanV 0, fanV 1, fanV 2, fanV 3]) 4 .LineStrip
        defaultRenderStates).uploads = c7Target.uploads) ∧
    lineStripPairs 0 4 = [0, 1, 1, 2, 2, 3] :=
  ⟨⟨by decide, by decide, by decide, by decide⟩,
   C7_linestrip_synthesis c7Target [fanV 0, fanV 1, fanV 2, fanV 3] 4 0
     defaultRenderStates (by decide) (by decide) (by decide) (by decide),
   by decide⟩

/-- C4: StepState equality holds iff the stored primitive kind, blend
mode, texture identity and shader identity all agree; a raw-vertex draw
call at or above the minimum vertex count extends the open batch
exactly when its StepState equals the open batch's (cache, cursor and
upload counter untouched, geometry appended to the same accumulator),
and otherwise closes the open batch through clearOngoingStep, opens a
new batch with the call's StepState and puts the call's geometry into
it; in particular drawing 3 points and then 2 points with the same
states from a fresh target leaves a single open batch of 5 vertices
(40 interleaved scalars) and no closed batch.  (The geometry-append
conjuncts exclude TriangleStrip, whose accumulation loop has no body in
the source.) -/
theorem C4_merge_on_equal_state (rt : RenderTarget) (vs : List Vertex) (count : Nat)
    (t : PrimitiveType) (states : RenderStates)
    (hmin : minVertexCount t ≤ count) :
    (∀ s1 s2 : StepState, s1 = s2 ↔
      (s1.type = s2.type ∧ s1.blendMode = s2.blendMode ∧
       s1.texture = s2.texture ∧ s1.shader = s2.shader)) ∧
    (StepState.ofStates (canonicalType t) states = rt.currentStep.state →
      (draw rt (some vs) count t states).steps = rt.steps ∧
      (draw rt (some vs) count t states).stepsIdx = rt.stepsIdx ∧
      (draw rt (some vs) count t states).uploads = rt.uploads ∧
      (draw rt (some vs) count t states).currentStep.state = rt.currentStep.state ∧
      (t ≠ .TriangleStrip →
        (draw rt (some vs) count t states).currentStep.vertices
          = rt.currentStep.vertices ++ floatsList states.transform (vs.take count))) ∧
    (StepState.ofStates (canonicalType t) states ≠ rt.currentStep.state →
      (draw rt (some vs) count t states).steps = (clearOngoingStep rt).steps ∧
      (draw rt (some vs) count t states).stepsIdx = (clearOngoingStep rt).stepsIdx ∧
      (draw rt (some vs) count t states).uploads = (clearOngoingStep rt).uploads ∧
      (draw rt (some vs) count t states).currentStep.state
        = StepState.ofStates (canonicalType t) states ∧
      (t ≠ .TriangleStrip →
        (draw rt (some vs) count t states).currentStep.vertices
          = (clearOngoingStep rt).currentStep.vertices
              ++ floatsList states.transform (vs.take count))) ∧
    (∀ (v3 v2 : List Vertex) (st : RenderStates), v3.length = 3 → v2.length = 2 →
      (draw (draw initialTarget (some v3) 3 .Points st) (some v2) 2 .Points st).steps
        = [] ∧
      (draw (draw initialTarget (some v3) 3 .Points st) (some v2) 2
          .Points st).currentStep.vertices.length = 40) := by
  have hmin' : ¬ count < minVertexCount t := by omega
  refine ⟨?_, ?_, ?_, ?_⟩
  · intro s1 s2
    constructor
    · rintro rfl
      exact ⟨rfl, rfl, rfl, rfl⟩
    · rintro ⟨h1, h2, h3, h4⟩
      exact StepState.ext h1 h2 h3 h4
  · intro hstate
    rw [draw_state_eq rt vs count t states hmin' hstate.symm]
    refine ⟨rfl, rfl, rfl, rfl, ?_⟩
    intro ht
    show (accumulate t states.transform (vs.take count)
      rt.currentStep.vertices rt.currentStep.elements).1
      = rt.currentStep.vertices ++ floatsList states.transform (vs.take count)
    exact accumulate_fst _ _ _ _ _ ht
  · intro hstate
    rw [draw_state_ne rt vs count t states hmin' (Ne.symm hstate)]
    refine ⟨rfl, rfl, rfl, rfl, ?_⟩
    intro ht
    show (accumulate t states.transform (vs.take count)
      (clearOngoingStep rt).currentStep.vertices
      (clearOngoingStep rt).currentStep.elements).1
      = (clearOngoingStep rt).currentStep.vertices
          ++ floatsList states.transform (vs.take count)
    exact accumulate_fst _ _ _ _ _ ht
  · intro v3 v2 st h3 h2
    have hmin3 : ¬ (3 : Nat) < minVertexCount .Points := by decide
    have hmin2 : ¬ (2 : Nat) < minVertexCount .Points := by decide
    have hfacts : (draw initialTarget (some v3) 3 .Points st).steps = [] ∧
        (draw initialTarget (some v3) 3 .Points st).currentStep.state
          = StepState.ofStates (canonicalType .Points) st ∧
        (draw initialTarget (some v3) 3 .Points st).currentStep.vertices
          = floatsList st.transform (v3.take 3) := by
      by_cases hc : initialTarget.currentStep.state
          = StepState.ofStates (canonicalType .Points) st
      · rw [draw_state_eq initialTarget v3 3 .Points st hmin3 hc]
        refine ⟨rfl, hc, ?_⟩
        show (accumulate .Points st.transform (v3.take 3)
          initialTarget.currentStep.vertices initialTarget.currentStep.elements).1 = _
        rw [accumulate_fst _ _ _ _ _ (by decide)]
        rfl
      · rw [draw_state_ne initialTarget v3 3 .Points st hmin3 hc]
        have hclear : clearOngoingStep initialTarget = initialTarget := by decide
        rw [hclear]
        refine ⟨rfl, rfl, ?_⟩
        show (accumulate .Points st.transform (v3.take 3)
          initialTarget.currentStep.vertices initialTarget.currentStep.elements).1 = _
        rw [accumulate_fst _ _ _ _ _ (by decide)]
        rfl
    rw [draw_state_eq (draw initialTarget (some v3) 3 .Points st) v2 2 .Points st
      hmin2 hfacts.2.1]
    refine ⟨hfacts.1, ?_⟩
    show (accumulate .Points st.transform (v2.take 2)
      (draw initialTarget (some v3) 3 .Points st).currentStep.vertices
      (draw initialTarget (some v3) 3 .Points st).currentStep.elements).1.length = 40
    rw [accumulate_fst _ _ _ _ _ (by decide), List.length_append, hfacts.2.2,
      floatsList_length, floatsList_length, List.length_take, List.length_take, h3, h2]
    omega

/-- Witness for C4 at a concrete instantiation: a Points draw of 3
sample vertices with default states on a fresh target. -/
theorem C4_merge_on_equal_state_witness :
    minVertexCount .Points ≤ 3 ∧
    ((∀ s1 s2 : StepState, s1 = s2 ↔
       (s1.type = s2.type ∧ s1.blendMode = s2.blendMode ∧
        s1.texture = s2.texture ∧ s1.shader = s2.shader)) ∧
     (StepState.ofStates (canonicalType .Points) defaultRenderStates
        = initialTarget.currentStep.state →
       (draw initialTarget (some fanList) 3 .Points defaultRenderStates).steps
         = initialTarget.steps ∧
       (draw initialTarget (some fanList) 3 .Points defaultRenderStates).stepsIdx
         = initialTarget.stepsIdx ∧
       (draw initialTarget (some fanList) 3 .Points defaultRenderStates).uploads
         = initialTarget.uploads ∧
       (draw initialTarget (some fanList) 3 .Points defaultRenderStates).currentStep.state
         = initialTarget.currentStep.state ∧
       (PrimitiveType.Points ≠ .TriangleStrip →
         (draw initialTarget (some fanList) 3 .Points defaultRenderStates).currentStep.vertices
           = initialTarget.currentStep.vertices
               ++ floatsList defaultRenderStates.transform (fanList.take 3))) ∧
     (StepState.ofStates (canonicalType .Points) defaultRenderStates
        ≠ initialTarget.currentStep.state →
       (draw initialTarget (some fanList) 3 .Points defaultRenderStates).steps
         = (clearOngoingStep initialTarget).steps ∧
       (draw initialTarget (some fanList) 3 .Points defaultRenderStates).stepsIdx
         = (clearOngoingStep initialTarget).stepsIdx ∧
       (draw initialTarget (some fanList) 3 .Points defaultRenderStates).uploads
         = (clearOngoingStep initialTarget).uploads ∧
       (draw initialTarget (some fanList) 3 .Points defaultRenderStates).currentStep.state
         = StepState.ofStates (canonicalType .Points) defaultRenderStates ∧
       (PrimitiveType.Points ≠ .TriangleStrip →
         (draw initialTarget (some fanList) 3 .Points defaultRenderStates).currentStep.vertices
           = (clearOngoingStep initialTarget).currentStep.vertices
               ++ floatsList defaultRenderStates.transform (fanList.take 3))) ∧
     (∀ (v3 v2 : List Vertex) (st : RenderStates), v3.length = 3 → v2.length = 2 →
       (draw (draw initialTarget (some v3) 3 .Points st) (some v2) 2 .Points st).steps
         = [] ∧
       (draw (draw initialTarget (some v3) 3 .Points st) (some v2) 2
           .Points st).currentStep.vertices.length = 40)) :=
  ⟨by decide,
   C4_merge_on_equal_state initialTarget fanList 3 .Points defaultRenderStates (by decide)⟩

/-- C5: evaluation of the new_type computation of the source.  LineStrip
is canonicalized to Lines and Points, Lines, Triangles pass through, as
the claim states; but TriangleStrip and TriangleFan also pass through
unchanged (line 264 of the source is the no-effect comparison statement
new_type == Triangles), contradicting the claimed canonicalization to
Triangles (restated here as specCanonicalType); the StepState stored by
a TriangleFan draw accordingly carries kind TriangleFan. -/
theorem C5_canonicalization_eval :
    canonicalType .Points = .Points ∧
    canonicalType .Lines = .Lines ∧
    canonicalType .Triangles = .Triangles ∧
    canonicalType .LineStrip = .Lines ∧
    canonicalType .TriangleStrip = .TriangleStrip ∧
    canonicalType .TriangleFan = .TriangleFan ∧
    specCanonicalType .TriangleStrip = .Triangles ∧
    specCanonicalType .TriangleFan = .Triangles ∧
    (draw initialTarget (some fanList) 5 .TriangleFan
      defaultRenderStates).currentStep.state.type = .TriangleFan := by
  decide

/-- C6: evaluation of the TriangleFan index synthesis of the source at
the claim's concrete input.  Five vertices drawn as a TriangleFan into
an empty batch yield the index sequence [0, 2, 3, 0, 3, 4] - the loop
condition i > 2 at line 324 is over the 0-based call-local index, so
the first triangle (0, 1, 2) of the claimed sequence
[0, 1, 2, 0, 2, 3, 0, 3, 4] is never emitted; a fan of exactly three
vertices (which passes the minimum-vertex filter of 3) emits no indices
at all, even though the reservation at line 279 sizes the index buffer
for (n - 2) triangles. -/
theorem C6_trianglefan_indices_eval :
    (draw initialTarget (some fanList) 5 .TriangleFan
      defaultRenderStates).currentStep.elements = [0, 2, 3, 0, 3, 4] ∧
    (draw initialTarget (some [fanV 0, fanV 1, fanV 2]) 3 .TriangleFan
      defaultRenderStates).currentStep.elements = [] ∧
    ([0, 2, 3, 0, 3, 4] : List Nat) ≠ [0, 1, 2, 0, 2, 3, 0, 3, 4] := by
  decide

/-- C8: a raw-vertex draw call supplying fewer vertices than the
minimum for its requested (pre-canonicalization) topology leaves the
target completely unchanged - open batch, StepState, cache, cursor and
upload counter included - and the minimum counts are Points 1,
Lines and LineStrip 2, Triangles, TriangleStrip and TriangleFan 3. -/
theorem C8_minimum_count_filtering (rt : RenderTarget) (vs : List Vertex) (count : Nat)
    (t : PrimitiveType) (states : RenderStates)
    (h : count < minVertexCount t) :
    draw rt (some vs) count t states = rt ∧
    minVertexCount .Points = 1 ∧
    minVertexCount .Lines = 2 ∧
    minVertexCount .LineStrip = 2 ∧
    minVertexCount .Triangles = 3 ∧
    minVertexCount .TriangleStrip = 3 ∧
    minVertexCount .TriangleFan = 3 := by
  refine ⟨?_, rfl, rfl, rfl, rfl, rfl, rfl⟩
  simp only [draw]
  rw [if_pos h]

/-- Witness for C8 at the claim's own example: draw(vertices, 1, Lines,
state) is a silent no-op. -/
theorem C8_minimum_count_filtering_witness :
    1 < minVertexCount .Lines ∧
    (draw initialTarget (some [fanV 0]) 1 .Lines defaultRenderStates = initialTarget ∧
     minVertexCount .Points = 1 ∧
     minVertexCount .Lines = 2 ∧
     minVertexCount .LineStrip = 2 ∧
     minVertexCount .Triangles = 3 ∧
     minVertexCount .TriangleStrip = 3 ∧
     minVertexCount .TriangleFan = 3) :=
  ⟨by decide,
   C8_minimum_count_filtering initialTarget [fanV 0] 1 .Lines defaultRenderStates (by decide)⟩

/-- C10: a raw-vertex draw call whose vertex-array pointer is null is a
no-op for every count, topology and pipeline state - even when the
count meets the topology's minimum - leaving batch, cache, cursor and
upload counter unchanged. -/
theorem C10_null_vertex_pointer_noop (rt : RenderTarget) (count : Nat)
    (t : PrimitiveType) (states : RenderStates) :
    draw rt none count t states = rt := rfl

lemma clearOngoingStep_cur_fields (rt : RenderTarget)
    (hwf : (rt.currentStep.vertices = [] ∧ rt.currentStep.elements = []) ∨
           (rt.currentStep.vertices ≠ [] ∧ rt.currentStep.elements ≠ []))
    (hvao : rt.currentStep.vao = 0) (hebo : rt.currentStep.ebo = 0) :
    (clearOngoingStep rt).currentStep.vertices = [] ∧
    (clearOngoingStep rt).currentStep.elements = [] ∧
    (clearOngoingStep rt).currentStep.vao = 0 ∧
    (clearOngoingStep rt).currentStep.ebo = 0 := by
  unfold clearOngoingStep
  rcases clearStepDiff_cases rt with hd | ⟨hd, hv, he⟩ | hd
  · rw [hd, clearStepUpload_skip _ (Or.inl rfl)]
    exact ⟨rfl, rfl, rfl, rfl⟩
  · rw [hd, clearStepUpload_go { rt with steps := rt.steps.take rt.stepsIdx } hv he]
    exact ⟨rfl, rfl, rfl, rfl⟩
  · rw [hd]
    rcases hwf with ⟨h1, h2⟩ | ⟨h1, h2⟩
    · rw [clearStepUpload_skip rt (Or.inl h1)]
      exact ⟨h1, h2, hvao, hebo⟩
    · rw [clearStepUpload_go rt h1 h2]
      exact ⟨rfl, rfl, rfl, rfl⟩

/-- C9 counterexample: the claim's "unconditionally closes the current
open batch first... and sends exactly one Overruled DrawStep
referencing the buffer handle, first-vertex offset, vertex count, and
the draw's StepState" is false of the code when the open batch is the
degenerate one an ordinary 3-vertex TriangleFan draw leaves behind
(24 scalars, no indices).  clearOngoingStep neither caches nor clears
that batch, and because line 375 pushes (firstVertex, vertexCount)
onto the surviving m_currentStep.vertices, the emitted overruled step
carries the 24 leftover scalars ahead of the pair - 26 entries, not
the referenced pair [2, 8]. -/
theorem C9_overruled_buffer_draw_counterexample :
    fan3Target.currentStep.vertices.length = 24 ∧
    fan3Target.currentStep.elements = [] ∧
    (drawVertexBuffer fan3Target 7 10 .Points 2 100 defaultRenderStates).steps.length = 2 ∧
    ((drawVertexBuffer fan3Target 7 10 .Points 2 100
        defaultRenderStates).steps.getD 1 defaultStep).overruled = true ∧
    ((drawVertexBuffer fan3Target 7 10 .Points 2 100
        defaultRenderStates).steps.getD 1 defaultStep).vertices.length = 26 ∧
    ((drawVertexBuffer fan3Target 7 10 .Points 2 100
        defaultRenderStates).steps.getD 1 defaultStep).vertices
      ≠ [((2 : Nat) : Rat), ((min 100 (10 - 2) : Nat) : Rat)] := by
  have h26 : ((drawVertexBuffer fan3Target 7 10 .Points 2 100
      defaultRenderStates).steps.getD 1 defaultStep).vertices.length = 26 := by
    decide
  refine ⟨by decide, by decide, by decide, by decide, h26, ?_⟩
  intro h
  rw [h] at h26
  simp at h26

/-- C9 as amended: drawing from an external vertex buffer clamps the
count to the buffer's remaining capacity; when the buffer has no
native handle or the clamped count is zero the target is unchanged;
otherwise - provided the open batch is empty or has both CPU buffers
non-empty - the open batch is first closed through clearOngoingStep
(regardless of any state match), and exactly one overruled DrawStep -
carrying the buffer handle, the first-vertex offset, the clamped
vertex count and the draw's StepState, with no CPU geometry comparison
and no upload of its own - is appended to the cache, with the cursor
advancing by one past the close.  (A degenerate open batch with vertex
data but no indices is not closed and its scalars leak into the
overruled step; see the counterexample.)  The hvao/hebo hypotheses
record that the open batch carries no GPU handles, which holds of
every open batch this model can build: no operation ever assigns vao
or ebo to the open batch. -/
theorem C9_overruled_buffer_draw (rt : RenderTarget) (bufHandle bufVertexCount : Nat)
    (bufType : PrimitiveType) (firstVertex vertexCount : Nat) (states : RenderStates)
    (hwf : (rt.currentStep.vertices = [] ∧ rt.currentStep.elements = []) ∨
           (rt.currentStep.vertices ≠ [] ∧ rt.currentStep.elements ≠ []))
    (hvao : rt.currentStep.vao = 0) (hebo : rt.currentStep.ebo = 0) :
    (bufHandle = 0 ∨ min vertexCount (bufVertexCount - firstVertex) = 0 →
      drawVertexBuffer rt bufHandle bufVertexCount bufType firstVertex vertexCount states
        = rt) ∧
    (bufHandle ≠ 0 → min vertexCount (bufVertexCount - firstVertex) ≠ 0 →
      drawVertexBuffer rt bufHandle bufVertexCount bufType firstVertex vertexCount states =
        { clearOngoingStep rt with
          steps := (clearOngoingStep rt).steps ++
            [{ state := StepState.ofStates bufType states
               vertices := [(firstVertex : Rat),
                 ((min vertexCount (bufVertexCount - firstVertex) : Nat) : Rat)]
               elements := []
               vbo := bufHandle
               vao := 0
               ebo := 0
               overruled := true }]
          stepsIdx := (clearOngoingStep rt).stepsIdx + 1
          currentStep := defaultStep }) := by
  constructor
  · intro hnop
    unfold drawVertexBuffer
    by_cases hfv : bufVertexCount < firstVertex
    · rw [if_pos hfv]
    · rw [if_neg hfv]
      rw [if_pos (by tauto :
        min vertexCount (bufVertexCount - firstVertex) = 0 ∨ bufHandle = 0)]
  · intro hh hc
    unfold drawVertexBuffer
    have hfv : ¬ bufVertexCount < firstVertex := by
      intro hlt
      apply hc
      have hz : bufVertexCount - firstVertex = 0 := by omega
      rw [hz]
      simp
    rw [if_neg hfv]
    rw [if_neg (by tauto :
      ¬(min vertexCount (bufVertexCount - firstVertex) = 0 ∨ bufHandle = 0))]
    obtain ⟨h1, h2, h3, h4⟩ := clearOngoingStep_cur_fields rt hwf hvao hebo
    have hov : ({ (clearOngoingStep rt).currentStep with
        state := StepState.ofStates bufType states
        vbo := bufHandle
        overruled := true
        vertices := (clearOngoingStep rt).currentStep.vertices
          ++ [(firstVertex : Rat),
              ((min vertexCount (bufVertexCount - firstVertex) : Nat) : Rat)] } : DrawStep)
        = { state := StepState.ofStates bufType states
            vertices := [(firstVertex : Rat),
              ((min vertexCount (bufVertexCount - firstVertex) : Nat) : Rat)]
            elements := []
            vbo := bufHandle
            vao := 0
            ebo := 0
            overruled := true } := by
      refine DrawStep.ext rfl ?_ h2 rfl h3 h4 rfl
      rw [h1]
      rfl
    show ({ clearOngoingStep rt with
        steps := (clearOngoingStep rt).steps ++
          [{ (clearOngoingStep rt).currentStep with
             state := StepState.ofStates bufType states
             vbo := bufHandle
             overruled := true
             vertices := (clearOngoingStep rt).currentStep.vertices
               ++ [(firstVertex : Rat),
                   ((min vertexCount (bufVertexCount - firstVertex) : Nat) : Rat)] }]
        stepsIdx := (clearOngoingStep rt).stepsIdx + 1
        currentStep := defaultStep } : RenderTarget) = _
    rw [hov]

/-- Witness for C9: a buffer of 10 vertices with handle 7, drawn from
offset 2 with a requested count of 100 (clamped to 8) on a fresh
target. -/
theorem C9_overruled_buffer_draw_witness :
    (((initialTarget.currentStep.vertices = [] ∧
       initialTarget.currentStep.elements = []) ∨
      (initialTarget.currentStep.vertices ≠ [] ∧
       initialTarget.currentStep.elements ≠ [])) ∧
     initialTarget.currentStep.vao = 0 ∧ initialTarget.currentStep.ebo = 0) ∧
    (((7 : Nat) = 0 ∨ min 100 (10 - 2) = 0 →
       drawVertexBuffer initialTarget 7 10 .Points 2 100 defaultRenderStates
         = initialTarget) ∧
     ((7 : Nat) ≠ 0 → min 100 (10 - 2) ≠ 0 →
       drawVertexBuffer initialTarget 7 10 .Points 2 100 defaultRenderStates =
         { clearOngoingStep initialTarget with
           steps := (clearOngoingStep initialTarget).steps ++
             [{ state := StepState.ofStates .Points defaultRenderStates
                vertices := [((2 : Nat) : Rat), ((min 100 (10 - 2) : Nat) : Rat)]
                elements := []
                vbo := 7
                vao := 0
                ebo := 0
                overruled := true }]
           stepsIdx := (clearOngoingStep initialTarget).stepsIdx + 1
           currentStep := defaultStep })) :=
  ⟨⟨Or.inl ⟨rfl, rfl⟩, rfl, rfl⟩,
   C9_overruled_buffer_draw initialTarget 7 10 .Points 2 100 defaultRenderStates
     (Or.inl ⟨rfl, rfl⟩) rfl rfl⟩
